import Mathlib

/-!
Verification of the pdfQA repository specification against a shallow
embedding of its two source files, `src/utils.py` and `src/app.py`.

Pure fragments of the Python code are translated to executable Lean
functions.  Stateful fragments (the `PDFProcessor` object and the
`PDFChatApp` window) are translated to explicit state passing over
record types.  External capabilities (the Gemini language model, the
Gemini embedding model, the FAISS similarity search) are modelled as
oracle values supplied to each operation; fallible Python calls are
modelled with `Except`.
-/

/-! ### String helpers modelling Python primitives -/

/-- Python `str.strip()`: remove leading and trailing whitespace. -/
def pyStrip (s : String) : String :=
  (((s.toList.dropWhile Char.isWhitespace).reverse.dropWhile Char.isWhitespace).reverse).asString

/-- Fuel-driven worker for `pyReplace`.  At each position, if the pattern
matches, it is consumed and the replacement emitted, scanning resumes after
the matched occurrence (Python's non-overlapping left-to-right semantics);
otherwise one character is kept.  The fuel is an upper bound on the number
of steps (each step consumes at least one character of the input). -/
def replaceAllAux : Nat → List Char → List Char → List Char → List Char
  | 0, _, _, s => s
  | Nat.succ _, _, _, [] => []
  | Nat.succ n, pat, rep, c :: rest =>
    if !pat.isEmpty && List.isPrefixOf pat (c :: rest) then
      rep ++ replaceAllAux n pat rep (List.drop pat.length (c :: rest))
    else
      c :: replaceAllAux n pat rep rest

/-- Python `s.replace(pat, rep)` for a non-empty pattern: replace every
non-overlapping occurrence, scanning left to right. -/
def pyReplace (s pat rep : String) : String :=
  (replaceAllAux (s.toList.length + 1) pat.toList rep.toList s.toList).asString

/-- Python `os.path.basename`: everything after the last slash. -/
def basename (p : String) : String :=
  ((p.toList.reverse.takeWhile (fun c => c ≠ '/')).reverse).asString

/-! ### Text chunking (`utils.get_text_chunks`, lines 14-29)

Modelled from the spec: the repository delegates splitting to the
third-party `RecursiveCharacterTextSplitter` from langchain, whose source
is not part of this repository.  Section 4.2 of the spec gives the contract
`chunk(text, chunk_size=10000, overlap=1000)`: a deterministic
sliding-window split in which consecutive chunks overlap by `overlap`
characters, the overlap is strictly less than the chunk size, and the final
chunk may be shorter than `chunk_size`. -/

/-- Modelled from the spec: `chunk(text, c, o)`, the sliding-window split of
§4.2.  Windows of length `c` start every `c - o` positions; the final
window, which may be shorter, ends the list.  The degenerate parameter
choice `c ≤ o` (excluded by the spec) returns the whole text as one chunk. -/
def chunk (text : List α) (c o : Nat) : List (List α) :=
  if _h : c ≤ o ∨ text.length ≤ c then [text]
  else text.take c :: chunk (text.drop (c - o)) c o
termination_by text.length
decreasing_by
  simp only [List.length_drop]
  omega

/-- Inverse direction of the chunk contract: keep the first chunk whole and
drop the known `o`-character overlap from the front of every later chunk,
then concatenate. -/
def reassemble (o : Nat) : List (List α) → List α
  | [] => []
  | h :: rest => h ++ (rest.map (List.drop o)).flatten

/-- `utils.get_text_chunks` (lines 14-29): split the extracted text into
chunks of size 10000 with an overlap of 1000. -/
def get_text_chunks (text : String) : List String :=
  (chunk text.toList 10000 1000).map List.asString

/-! ### Text extraction (`utils.get_pdf_text`, lines 91-110)

The per-file text comes from the external PDF parser, modelled as an
opaque function `extract` from path to extracted text; `get_pdf_text`
concatenates the texts in file order. -/

/-- `utils.get_pdf_text` (lines 91-110): concatenate the extracted text of
every listed file, in order. -/
def get_pdf_text (extract : String → String) (pdf_files : List String) : String :=
  pdf_files.foldl (fun acc f => acc ++ extract f) ""

/-! ### Conversation state and prompt assembly -/

/-- A conversation turn, as appended in `app.ask_question` (lines 364-367). -/
structure Turn where
  question : String
  answer : String
deriving DecidableEq

/-- Rendering of history turns as `Q:`/`A:` pairs, as in the loop of
`app.ask_question` lines 352-353. -/
def renderTurns (ts : List Turn) : String :=
  ts.foldl (fun acc t => acc ++ "Q: " ++ t.question ++ "\nA: " ++ t.answer ++ "\n") ""

/-- `app.ask_question` lines 349-353: the `conversation_context` string is
empty when the in-memory history is empty, and otherwise holds a header
followed by the last three turns (Python `history[-3:]`) rendered in order. -/
def conversationContext (history : List Turn) : String :=
  if history = [] then ""
  else "\nPrevious conversation:\n" ++ renderTurns (history.drop (history.length - 3))

/-- `utils.get_conversational_chain` (lines 48-61) combined with the
template filling performed by `chain.invoke` (app lines 356-361): the fully
assembled prompt, with the joined document texts in the context section,
the conversation context section, the current question annotated with its
detected language, and the output-language instruction. -/
def prompt_template (conversation_context ctx question_language question output_language : String) : String :=
  "\n    Context from documents:\n " ++ ctx ++ "\n\n    " ++ conversation_context ++
  "\n\n    Question (in " ++ question_language ++ "):\n " ++ question ++
  "\n\n    Please understand both the document context and the previous conversation history.\n" ++
  "    Provide your answer in " ++ output_language ++
  ", taking into account both the document content\n    and any relevant information from the previous conversation.\n" ++
  "    If there are any references to previous questions or answers, make sure to maintain consistency.\n\n    Answer:\n    "

/-- Markdown stripping applied to the model response in `app.ask_question`
line 369: `response.replace("  ", " ").replace("*", "").replace("* ", "").replace("** ", "")`. -/
def strip_markdown (s : String) : String :=
  pyReplace (pyReplace (pyReplace (pyReplace s "  " " ") "*" "") "* " "") "** " ""

/-! ### The `PDFProcessor` state (`utils.py` lines 113-239) -/

/-- State owned by a `PDFProcessor`: the in-memory manifest
(`index_info["processed_files"]`, modelled as the list of recorded
basenames) and the on-disk FAISS index (`none` when the `faiss_index`
directory does not exist, otherwise the list of chunk texts it stores). -/
structure ProcessorState where
  processedFiles : List String
  diskIndex : Option (List String)
deriving DecidableEq

/-- `utils.PDFProcessor.get_vector_store` (lines 223-239):
`FAISS.load_local` raises when the index directory does not exist, so the
result is an `Except`; on success the stored chunk texts are returned. -/
def get_vector_store (p : ProcessorState) : Except String (List String) :=
  match p.diskIndex with
  | some texts => Except.ok texts
  | none => Except.error "could not open faiss index"

/-- `utils.PDFProcessor.process_pdfs` (lines 162-200): extract and chunk
the text of the given files, then either add the chunks to the existing
index (when the index directory exists on disk AND the manifest is
non-empty, line 188) or build a fresh index from exactly these chunks
(line 192); save the index and append one manifest record per file.  The
returned number counts the chunk texts sent to the external embedding
capability (each chunk is embedded exactly once by either branch). -/
def process_pdfs (extract : String → String) (st : ProcessorState) (pdf_files : List String) :
    ProcessorState × Nat :=
  let raw_text := get_pdf_text extract pdf_files
  let text_chunks := get_text_chunks raw_text
  let newIndex :=
    if st.diskIndex.isSome ∧ st.processedFiles ≠ [] then st.diskIndex.getD [] ++ text_chunks
    else text_chunks
  ({ processedFiles := st.processedFiles ++ pdf_files.map basename,
     diskIndex := some newIndex }, text_chunks.length)

/-- `utils.PDFProcessor.clear_index` (lines 202-220): inside a try block,
delete the index directory if it exists (`shutil.rmtree`, which may fail),
then empty the manifest, then rewrite the manifest file (which may also
fail).  The two booleans are failure oracles for the two fallible steps;
the result is the processor state at return or raise time together with
the raised error, if any. -/
def clear_index (rmtreeFails saveFails : Bool) (st : ProcessorState) :
    ProcessorState × Option String :=
  if st.diskIndex.isSome then
    if rmtreeFails then (st, some "IndexClearError: could not delete faiss index")
    else
      let st1 : ProcessorState := { processedFiles := [], diskIndex := none }
      if saveFails then (st1, some "could not write index info") else (st1, none)
  else
    let st1 : ProcessorState := { st with processedFiles := [] }
    if saveFails then (st1, some "could not write index info") else (st1, none)

/-- The Document Store `list_documents` view: the manifest contents, as
displayed by `app.update_processed_files_list` (lines 229-243). -/
def list_documents (p : ProcessorState) : List String :=
  p.processedFiles

/-! ### The application state (`app.PDFChatApp`) and the question turn -/

/-- External-capability invocations observable during one operation. -/
inductive Event where
  | fileAppend (q : String)
  | detectCall (q : String)
  | loadIndex
  | searchCall (q : String)
  | generateCall (prompt : String)
deriving DecidableEq

/-- Whether an event is an invocation of the language model for answer
generation. -/
def isGenerateCall : Event → Bool
  | Event.generateCall _ => true
  | _ => false

/-- Oracle values for the external capabilities consumed during one
question turn: the language-detection result, the similarity-search
function (stored chunk texts and query to ranked results), and the
chat-model generation result. -/
structure Oracles where
  detect_language : Except String String
  similarity_search : List String → String → List String
  invoke : Except String String

/-- State owned by the `PDFChatApp` window relevant to the specified
operations: the processor, the pending upload selection, the in-memory
conversation turns, the in-memory question list (`none` models the
attribute never having been set, which happens when no history file
existed at startup, `app.load_history` lines 426-438), the persisted
question-history file lines, the visible chat transcript, the input
field, the language selector, and the two button-enabled flags. -/
structure AppState where
  processor : ProcessorState
  pdf_files : List String
  conversation_history : List Turn
  question_history : Option (List String)
  history_file : List String
  chat_history : List String
  question_input : String
  language_combo : String
  process_button_enabled : Bool
  send_button_enabled : Bool
deriving DecidableEq

/-- Result of one `ask_question` slot invocation: the final application
state, the external calls issued in order, and whether an exception
escaped the method (no handler inside the slot caught it). -/
structure AskResult where
  state : AppState
  events : List Event
  crashed : Bool
deriving DecidableEq

/-- Whether an `Except` value is an error. -/
def isErr : Except ε α → Bool
  | Except.error _ => true
  | Except.ok _ => false

/-- `app.PDFChatApp.load_history` (lines 426-438): the `question_history`
attribute is assigned only when the history file exists; otherwise it is
never created. -/
def load_history (fileExists : Bool) (lines : List String) : Option (List String) :=
  if fileExists then some lines else none

/-- `app.PDFChatApp.upload_pdfs` (lines 245-268) with the dialog result
passed in: when files were selected, keep only those whose basename is not
already in the manifest, store them as the pending selection, and either
report that everything was already processed or enable processing. -/
def upload_pdfs (st : AppState) (files : List String) : AppState :=
  if files = [] then st
  else
    let existing := st.processor.processedFiles
    let newFiles := files.filter (fun f => !(existing.contains (basename f)))
    let st1 := { st with pdf_files := newFiles }
    if newFiles = [] then
      { st1 with chat_history := st1.chat_history ++ ["All selected files have already been processed!"] }
    else
      { st1 with process_button_enabled := true,
                 chat_history := st1.chat_history ++
                   ["Selected " ++ toString newFiles.length ++ " new PDF files"] }

/-- `app.PDFChatApp.process_pdfs` (lines 270-309), success path: return
immediately when no files are pending, otherwise run the processor on the
pending selection, clear the selection, enable asking and disable
processing.  The second component counts chunk texts sent to the embedding
capability. -/
def app_process_pdfs (extract : String → String) (st : AppState) : AppState × Nat :=
  if st.pdf_files = [] then (st, 0)
  else
    let r := process_pdfs extract st.processor st.pdf_files
    ({ st with processor := r.1,
               pdf_files := [],
               process_button_enabled := false,
               send_button_enabled := true,
               chat_history := st.chat_history ++ ["Processing complete! You can now ask questions."] },
     r.2)

/-- `app.PDFChatApp.ask_question` (lines 311-375), transcribed step by
step: strip the input and return when empty (lines 328-330); echo the
question and clear the input (332-333); append the question to the
persisted history file (336-337); append it to the in-memory question list
(339) -- an `AttributeError` escapes the method here when the attribute
was never set; then inside the try block (341-375): detect the language,
load the vector store, run similarity search, assemble the prompt, invoke
the model, append the raw response to the conversation history (364-367),
strip markdown from the response (369) and display it (372); any failure
inside the try block is rendered as an `Error:` chat message (374-375). -/
def ask_question (o : Oracles) (st : AppState) : AskResult :=
  let question := pyStrip st.question_input
  if question = "" then { state := st, events := [], crashed := false }
  else
    let st2 := { st with chat_history := st.chat_history ++ ["\nQuestion: " ++ question],
                         question_input := "",
                         history_file := st.history_file ++ [question] }
    match st2.question_history with
    | none => { state := st2, events := [Event.fileAppend question], crashed := true }
    | some qh =>
      let st3 := { st2 with question_history := some (qh ++ [question]) }
      match o.detect_language with
      | Except.error e =>
        { state := { st3 with chat_history := st3.chat_history ++ ["Error: " ++ e] },
          events := [Event.fileAppend question, Event.detectCall question],
          crashed := false }
      | Except.ok question_language =>
        let output_language :=
          if st3.language_combo = "Auto (Same as Question)" then question_language
          else st3.language_combo
        match get_vector_store st3.processor with
        | Except.error e =>
          { state := { st3 with chat_history := st3.chat_history ++ ["Error: " ++ e] },
            events := [Event.fileAppend question, Event.detectCall question, Event.loadIndex],
            crashed := false }
        | Except.ok texts =>
          let docs := o.similarity_search texts question
          let prompt := prompt_template (conversationContext st3.conversation_history)
            (String.intercalate "\n\n" docs) question_language question output_language
          match o.invoke with
          | Except.error e =>
            { state := { st3 with chat_history := st3.chat_history ++ ["Error: " ++ e] },
              events := [Event.fileAppend question, Event.detectCall question, Event.loadIndex,
                         Event.searchCall question, Event.generateCall prompt],
              crashed := false }
          | Except.ok response =>
            let st4 := { st3 with conversation_history :=
              st3.conversation_history ++ [Turn.mk question response] }
            let response2 := strip_markdown response
            { state := { st4 with chat_history := st4.chat_history ++ ["Response: " ++ response2 ++ "\n"] },
              events := [Event.fileAppend question, Event.detectCall question, Event.loadIndex,
                         Event.searchCall question, Event.generateCall prompt],
              crashed := false }

/-! ### Concrete states and oracles used in closed theorems -/

/-- An opaque PDF-extraction capability giving every file the same text. -/
def sampleExtract : String → String := fun _ => "sample text"

/-- A similarity-search capability returning the first four stored chunks
(the external default result count is four). -/
def searchTop4 : List String → String → List String := fun ts _ => ts.take 4

/-- Oracles for a run in which every external call succeeds. -/
def oDetectOk : Oracles :=
  { detect_language := Except.ok "English", similarity_search := searchTop4,
    invoke := Except.ok "Hello" }

/-- Oracles for a run in which language detection fails. -/
def oDetectFail : Oracles :=
  { detect_language := Except.error "api error", similarity_search := searchTop4,
    invoke := Except.ok "Hello" }

/-- Oracles whose generation result carries markdown artifacts. -/
def oBold : Oracles :=
  { detect_language := Except.ok "English", similarity_search := searchTop4,
    invoke := Except.ok "**Bold**  text" }

/-- Fresh application state in which the index has never been populated
and a question is typed into the input field. -/
def stUnpopulated : AppState :=
  { processor := { processedFiles := [], diskIndex := none },
    pdf_files := [], conversation_history := [],
    question_history := some [], history_file := [], chat_history := [],
    question_input := "What is X?", language_combo := "English",
    process_button_enabled := false, send_button_enabled := false }

/-- Application state with one ingested document, a populated index, and a
question typed into the input field. -/
def stReady : AppState :=
  { processor := { processedFiles := ["a.pdf"], diskIndex := some ["chunk one"] },
    pdf_files := [], conversation_history := [],
    question_history := some [], history_file := [], chat_history := [],
    question_input := "Hi", language_combo := "English",
    process_button_enabled := false, send_button_enabled := true }

/-- Like `stReady`, but started when no question-history file existed, so
`load_history` never set the in-memory question list. -/
def stNoHistoryFile : AppState :=
  { stReady with question_history := load_history false [],
                 question_input := "What is X?" }

/-- Like `stReady`, but with whitespace-only input. -/
def stBlank : AppState :=
  { stReady with question_input := " \n " }

/-- A phantom-index processor state: a stale index directory exists on
disk while the manifest is empty. -/
def procPhantom : ProcessorState :=
  { processedFiles := [], diskIndex := some ["stale chunk"] }

/-- Four prior conversation turns. -/
def sampleTurns : List Turn :=
  [Turn.mk "q0" "a0", Turn.mk "q1" "a1", Turn.mk "q2" "a2", Turn.mk "q3" "a3"]

/-! ### Chunk-contract lemmas -/

/-- Dropping the `o`-character overlap from the front of every chunk and
concatenating yields the text without its first `o` characters. -/
theorem chunk_map_drop_flatten (c o : Nat) (ho : o < c) (t : List α) :
    ((chunk t c o).map (List.drop o)).flatten = t.drop o := by
  rw [chunk]
  split
  · simp
  · rename_i h
    push_neg at h
    have ih := chunk_map_drop_flatten c o ho (t.drop (c - o))
    simp only [List.map_cons, List.flatten_cons, ih, List.drop_drop]
    have hco : c - o + o = c := by omega
    rw [hco]
    have hc : o ≤ (t.take c).length := by
      simp only [List.length_take]
      omega
    conv_rhs => rw [← List.take_append_drop c t]
    rw [List.drop_append_of_le_length hc]
  termination_by t.length

/-- Removing the known `o`-character overlap between neighbouring chunks
and concatenating reconstructs the original text. -/
theorem reassemble_chunk (c o : Nat) (ho : o < c) (t : List α) :
    reassemble o (chunk t c o) = t := by
  rw [chunk]
  split
  · simp [reassemble]
  · rename_i h
    push_neg at h
    simp only [reassemble, chunk_map_drop_flatten c o ho, List.drop_drop]
    have hco : c - o + o = c := by omega
    rw [hco, List.take_append_drop]

/-- A 25000-character text chunks into exactly the three windows at
offsets 0-10000, 9000-19000 and 18000-25000, in order. -/
theorem chunk_len_25000 (t : List α) (ht : t.length = 25000) :
    chunk t 10000 1000 = [t.take 10000, (t.drop 9000).take 10000, t.drop 18000] := by
  rw [chunk]
  rw [dif_neg (by omega)]
  rw [chunk]
  rw [dif_neg (by simp only [List.length_drop]; omega)]
  rw [chunk]
  rw [dif_pos (by simp only [List.length_drop]; omega)]
  norm_num [List.drop_drop]

/-! ### Claim theorems -/

/-- C1 (counterexample): with the vector index never populated, the
question turn does NOT reach the language model — no generation call is
issued — and the retrieval step raises an error that is rendered as an
`Error:` chat message, refuting the claim that retrieval returns an empty
sequence and the call still reaches the model. -/
theorem c1_counterexample :
    (ask_question oDetectOk stUnpopulated).events.any isGenerateCall = false ∧
    (ask_question oDetectOk stUnpopulated).state.chat_history =
      ["\nQuestion: What is X?", "Error: could not open faiss index"] := by
  decide

/-- C1 (amended): for every question turn started with the vector index
never populated (no index directory on disk), the language model is never
invoked and the conversation history is unchanged.  When the in-memory
question list exists (a question-history file existed at startup),
loading the vector store raises and the error is caught at the turn
boundary and rendered as an `Error:` chat message without crashing; when
the list was never created, the turn instead aborts earlier with the
uncaught attribute error of line 339 (the C9 bug), still before any
retrieval or generation. -/
theorem c1_amended (o : Oracles) (st : AppState)
    (hq : pyStrip st.question_input ≠ "")
    (hidx : st.processor.diskIndex = none) :
    (ask_question o st).events.any isGenerateCall = false ∧
    (ask_question o st).state.conversation_history = st.conversation_history ∧
    (∀ qs, st.question_history = some qs →
      (ask_question o st).crashed = false ∧
      ∃ e, (ask_question o st).state.chat_history =
        st.chat_history ++ ["\nQuestion: " ++ pyStrip st.question_input, "Error: " ++ e]) ∧
    (st.question_history = none → (ask_question o st).crashed = true) := by
  cases hqh : st.question_history with
  | none =>
    refine ⟨?_, ?_, ?_, ?_⟩ <;>
      simp [ask_question, hq, hqh, isGenerateCall]
  | some qh =>
    cases hdet : o.detect_language with
    | error e =>
      refine ⟨?_, ?_, fun qs hqs => ⟨?_, ⟨e, ?_⟩⟩, ?_⟩ <;>
        simp [ask_question, hq, hqh, hdet, isGenerateCall]
    | ok lang =>
      refine ⟨?_, ?_, fun qs hqs => ⟨?_, ⟨"could not open faiss index", ?_⟩⟩, ?_⟩ <;>
        simp [ask_question, hq, hqh, hdet, get_vector_store, hidx, isGenerateCall]

/-- Witness for `c1_amended` at the concrete never-populated state. -/
theorem c1_amended_witness :
    pyStrip stUnpopulated.question_input ≠ "" ∧
    stUnpopulated.processor.diskIndex = none ∧
    ((ask_question oDetectOk stUnpopulated).events.any isGenerateCall = false ∧
     (ask_question oDetectOk stUnpopulated).state.conversation_history =
        stUnpopulated.conversation_history ∧
     (∀ qs, stUnpopulated.question_history = some qs →
       (ask_question oDetectOk stUnpopulated).crashed = false ∧
       ∃ e, (ask_question oDetectOk stUnpopulated).state.chat_history =
         stUnpopulated.chat_history ++
           ["\nQuestion: " ++ pyStrip stUnpopulated.question_input, "Error: " ++ e]) ∧
     (stUnpopulated.question_history = none →
       (ask_question oDetectOk stUnpopulated).crashed = true)) :=
  ⟨by decide, rfl,
   c1_amended oDetectOk stUnpopulated (by decide) rfl⟩

/-- C2: ingesting paths whose basenames already appear in the manifest is
a no-op on the second attempt: the upload step filters them all out, the
processing step returns immediately, the manifest is unchanged (hence its
length is unchanged) and zero chunk texts are sent to the embedding
capability. -/
theorem c2_duplicate_noop (extract : String → String) (st : AppState) (files : List String)
    (hne : files ≠ [])
    (hdup : ∀ f ∈ files, st.processor.processedFiles.contains (basename f)) :
    (app_process_pdfs extract (upload_pdfs st files)).1.processor.processedFiles =
      st.processor.processedFiles ∧
    (app_process_pdfs extract (upload_pdfs st files)).2 = 0 := by
  have hfil : files.filter (fun f => !(st.processor.processedFiles.contains (basename f))) = [] := by
    rw [List.filter_eq_nil_iff]
    intro a ha
    simp only [hdup a ha, Bool.not_true, Bool.false_eq_true, not_false_eq_true]
  simp only [upload_pdfs, app_process_pdfs]
  rw [if_neg hne, hfil]
  simp

/-- Witness for `c2_duplicate_noop`: re-selecting `dir/a.pdf` when
`a.pdf` is already in the manifest. -/
theorem c2_witness :
    (["dir/a.pdf"] : List String) ≠ [] ∧
    (∀ f ∈ (["dir/a.pdf"] : List String), stReady.processor.processedFiles.contains (basename f)) ∧
    ((app_process_pdfs sampleExtract (upload_pdfs stReady ["dir/a.pdf"])).1.processor.processedFiles =
       stReady.processor.processedFiles ∧
     (app_process_pdfs sampleExtract (upload_pdfs stReady ["dir/a.pdf"])).2 = 0) :=
  ⟨by decide, by decide,
   c2_duplicate_noop sampleExtract stReady ["dir/a.pdf"] (by decide) (by decide)⟩

/-- C3: `process_pdfs` builds a fresh index from exactly the supplied
chunks whenever the manifest is empty (even if a stale index directory
exists on disk) or no index directory exists, and performs an incremental
add into the existing index exactly when the index directory exists AND
the manifest is non-empty — the create-vs-append decision inspects the
`processed_files` manifest state, not only on-disk file existence. -/
theorem c3_create_vs_append (extract : String → String) (st : ProcessorState) (files : List String) :
    (st.processedFiles = [] →
      (process_pdfs extract st files).1.diskIndex =
        some (get_text_chunks (get_pdf_text extract files))) ∧
    (st.diskIndex = none →
      (process_pdfs extract st files).1.diskIndex =
        some (get_text_chunks (get_pdf_text extract files))) ∧
    (∀ v, st.diskIndex = some v → st.processedFiles ≠ [] →
      (process_pdfs extract st files).1.diskIndex =
        some (v ++ get_text_chunks (get_pdf_text extract files))) := by
  refine ⟨fun h => ?_, fun h => ?_, fun v hv hne => ?_⟩
  · simp [process_pdfs, h]
  · simp [process_pdfs, h]
  · simp [process_pdfs, hv, hne]

/-- Witness for `c3_create_vs_append` at the phantom-index state: a stale
index directory exists, the manifest is empty, and a fresh index is built
from exactly the supplied chunks. -/
theorem c3_witness :
    procPhantom.processedFiles = [] ∧
    (process_pdfs sampleExtract procPhantom ["b.pdf"]).1.diskIndex =
      some (get_text_chunks (get_pdf_text sampleExtract ["b.pdf"])) :=
  ⟨rfl, (c3_create_vs_append sampleExtract procPhantom ["b.pdf"]).1 rfl⟩

/-- C4: for every question turn in which language detection, retrieval
(loading the vector store) or generation fails, the turn is aborted with
no crash: the question is NOT appended to the in-memory conversation
history, but IS already recorded in the persisted question-history log,
because the log write happens before the answering attempt. -/
theorem c4_failed_turn (o : Oracles) (st : AppState) (qs : List String)
    (hqh : st.question_history = some qs)
    (hq : pyStrip st.question_input ≠ "")
    (hfail : isErr o.detect_language = true ∨ isErr (get_vector_store st.processor) = true ∨
             isErr o.invoke = true) :
    (ask_question o st).state.conversation_history = st.conversation_history ∧
    (ask_question o st).state.history_file = st.history_file ++ [pyStrip st.question_input] ∧
    (ask_question o st).crashed = false := by
  cases hdet : o.detect_language with
  | error e => simp [ask_question, hq, hqh, hdet]
  | ok lang =>
    cases hvs : st.processor.diskIndex with
    | none => simp [ask_question, hq, hqh, hdet, get_vector_store, hvs]
    | some texts =>
      cases hinv : o.invoke with
      | error e => simp [ask_question, hq, hqh, hdet, get_vector_store, hvs, hinv]
      | ok resp => simp [isErr, hdet, get_vector_store, hvs, hinv] at hfail

/-- Witness for `c4_failed_turn`: a turn whose language detection fails. -/
theorem c4_witness :
    stReady.question_history = some [] ∧
    pyStrip stReady.question_input ≠ "" ∧
    (isErr oDetectFail.detect_language = true ∨
      isErr (get_vector_store stReady.processor) = true ∨ isErr oDetectFail.invoke = true) ∧
    ((ask_question oDetectFail stReady).state.conversation_history = stReady.conversation_history ∧
     (ask_question oDetectFail stReady).state.history_file =
       stReady.history_file ++ [pyStrip stReady.question_input] ∧
     (ask_question oDetectFail stReady).crashed = false) :=
  ⟨rfl, by decide, Or.inl rfl,
   c4_failed_turn oDetectFail stReady [] rfl (by decide) (Or.inl rfl)⟩

/-- C5: the assembled prompt's conversation section is omitted entirely
(the empty string) when the in-memory history is empty; when the history
is non-empty it consists of the header followed by exactly the last
`min(n, 3)` turns — a suffix of the history, so the most recent turns in
oldest-to-newest order — rendered as Q/A pairs. -/
theorem c5_history_window (h : List Turn) :
    (h = [] → conversationContext h = "") ∧
    (h ≠ [] → ∃ pre w, h = pre ++ w ∧ w.length = min 3 h.length ∧
      conversationContext h = "\nPrevious conversation:\n" ++ renderTurns w) := by
  constructor
  · intro he
    simp [conversationContext, he]
  · intro hne
    refine ⟨h.take (h.length - 3), h.drop (h.length - 3),
      (List.take_append_drop _ _).symm, ?_, ?_⟩
    · simp only [List.length_drop]
      omega
    · simp [conversationContext, hne]

/-- Witness for `c5_history_window` at a four-turn history: only the last
three turns appear. -/
theorem c5_witness :
    sampleTurns ≠ [] ∧
    (∃ pre w, sampleTurns = pre ++ w ∧ w.length = min 3 sampleTurns.length ∧
      conversationContext sampleTurns = "\nPrevious conversation:\n" ++ renderTurns w) :=
  ⟨by decide, (c5_history_window sampleTurns).2 (by decide)⟩

/-- C6 (counterexample): after a successful turn whose raw response is
`**Bold**  text`, the stored turn's answer is the raw response, which
differs from the stripped text `Bold text` — refuting the claim that the
response is stripped first and the stored answer is the stripped text. -/
theorem c6_counterexample :
    (ask_question oBold stReady).state.conversation_history = [Turn.mk "Hi" "**Bold**  text"] ∧
    strip_markdown "**Bold**  text" = "Bold text" ∧
    ("**Bold**  text" : String) ≠ "Bold text" := by
  decide

/-- C6 (amended): on every successful question turn the turn is appended
to the in-memory history with the RAW model response as its answer, and
only afterwards is the response stripped of markdown artifacts, so the
displayed/returned response is the stripped text while the stored turn's
answer is the unstripped response. -/
theorem c6_amended (o : Oracles) (st : AppState) (qs : List String) (lang resp : String)
    (texts : List String)
    (hqh : st.question_history = some qs)
    (hq : pyStrip st.question_input ≠ "")
    (hdet : o.detect_language = Except.ok lang)
    (hidx : st.processor.diskIndex = some texts)
    (hinv : o.invoke = Except.ok resp) :
    (ask_question o st).state.conversation_history =
      st.conversation_history ++ [Turn.mk (pyStrip st.question_input) resp] ∧
    (ask_question o st).state.chat_history =
      st.chat_history ++ ["\nQuestion: " ++ pyStrip st.question_input,
                          "Response: " ++ strip_markdown resp ++ "\n"] := by
  simp [ask_question, hq, hqh, hdet, get_vector_store, hidx, hinv]

/-- Witness for `c6_amended` at the concrete markdown-bearing response. -/
theorem c6_amended_witness :
    stReady.question_history = some [] ∧
    pyStrip stReady.question_input ≠ "" ∧
    oBold.detect_language = Except.ok "English" ∧
    stReady.processor.diskIndex = some ["chunk one"] ∧
    oBold.invoke = Except.ok "**Bold**  text" ∧
    ((ask_question oBold stReady).state.conversation_history =
       stReady.conversation_history ++ [Turn.mk (pyStrip stReady.question_input) "**Bold**  text"] ∧
     (ask_question oBold stReady).state.chat_history =
       stReady.chat_history ++ ["\nQuestion: " ++ pyStrip stReady.question_input,
                                 "Response: " ++ strip_markdown "**Bold**  text" ++ "\n"]) :=
  ⟨rfl, by decide, rfl, rfl, rfl,
   c6_amended oBold stReady [] "English" "**Bold**  text" ["chunk one"] rfl (by decide) rfl rfl rfl⟩

/-- C7: for every `clear_index` call, either the on-disk index and the
manifest are both cleared, or an error is surfaced and the processor state
— in particular the `processed_files` manifest — is left unchanged, so
the manifest is emptied only after deletion of the on-disk index has
succeeded; and after a clear that surfaces no error, `list_documents`
returns the empty sequence. -/
theorem c7_clear_atomic (rmF svF : Bool) (st : ProcessorState) :
    (((clear_index rmF svF st).1.diskIndex = none ∧
      (clear_index rmF svF st).1.processedFiles = []) ∨
     ((clear_index rmF svF st).2.isSome = true ∧ (clear_index rmF svF st).1 = st)) ∧
    ((clear_index rmF svF st).2 = none → list_documents (clear_index rmF svF st).1 = []) := by
  cases hd : st.diskIndex <;> cases rmF <;> cases svF <;>
    simp [clear_index, hd, list_documents]

/-- Witness for `c7_clear_atomic`: a failure-free clear empties the
document list. -/
theorem c7_witness :
    (clear_index false false procPhantom).2 = none ∧
    list_documents (clear_index false false procPhantom).1 = [] :=
  ⟨rfl, (c7_clear_atomic false false procPhantom).2 rfl⟩

/-- C8: for every text and all chunk parameters with the overlap strictly
below the chunk size, concatenating the chunks after removing the known
`o`-character overlap between neighbours reconstructs the text exactly;
and a 25000-character text with chunk size 10000 and overlap 1000 yields
exactly three chunks at offsets 0-10000, 9000-19000 and 18000-25000, in
order. -/
theorem c8_chunk_contract :
    (∀ (t : List Char) (c o : Nat), o < c → reassemble o (chunk t c o) = t) ∧
    (∀ t : List Char, t.length = 25000 →
      chunk t 10000 1000 = [t.take 10000, (t.drop 9000).take 10000, t.drop 18000]) :=
  ⟨fun t c o ho => reassemble_chunk c o ho t, fun t ht => chunk_len_25000 t ht⟩

/-- Witness for `c8_chunk_contract`: reconstruction of a six-character
text chunked with size 3 and overlap 1, and the three-chunk shape on a
25000-character text. -/
theorem c8_witness :
    (1 < 3 ∧ reassemble 1 (chunk "abcdef".toList 3 1) = "abcdef".toList) ∧
    ((List.replicate 25000 'a').length = 25000 ∧
      chunk (List.replicate 25000 'a') 10000 1000 =
        [(List.replicate 25000 'a').take 10000,
         ((List.replicate 25000 'a').drop 9000).take 10000,
         (List.replicate 25000 'a').drop 18000]) :=
  ⟨⟨by omega, c8_chunk_contract.1 "abcdef".toList 3 1 (by omega)⟩,
   ⟨by rw [List.length_replicate],
    c8_chunk_contract.2 (List.replicate 25000 'a') (by rw [List.length_replicate])⟩⟩

/-- C9 (code bug): a question turn started when no question-history file
existed at startup reaches line 339 with the in-memory question list
never created; the resulting error escapes the method — it is raised
before the try block, so it is neither caught at the operation boundary
nor rendered as an `Error:` chat message — after the question has already
been written to the history file. -/
theorem c9_crash :
    (ask_question oDetectOk stNoHistoryFile).crashed = true ∧
    (ask_question oDetectOk stNoHistoryFile).state.history_file = ["What is X?"] ∧
    (ask_question oDetectOk stNoHistoryFile).state.chat_history = ["\nQuestion: What is X?"] := by
  decide

/-- C10: for every question input that is empty or whitespace-only after
stripping, `ask_question` is a complete no-op: the state (including the
persisted history file and both in-memory histories) is unchanged and no
external capability is invoked. -/
theorem c10_noop (o : Oracles) (st : AppState) (hq : pyStrip st.question_input = "") :
    ask_question o st = { state := st, events := [], crashed := false } := by
  simp [ask_question, hq]

/-- Witness for `c10_noop` at a whitespace-only input. -/
theorem c10_witness :
    pyStrip stBlank.question_input = "" ∧
    ask_question oDetectOk stBlank = { state := stBlank, events := [], crashed := false } :=
  ⟨by decide, c10_noop oDetectOk stBlank (by decide)⟩
